import Mathlib

/-!
Verification of the cache-freshness core of `zhixue-calendar` (`src/index.ts`).

Time values are modelled as ECMA-262 time values: integers counting
milliseconds since the Unix epoch (UTC).  The `Date` UTC accessors used by the
source (`getUTCHours`, `setUTCHours`, `getUTCDate`/`setUTCDate`) are embedded
through their ECMA-262 definitions, which are floor divisions and remainders by
fixed positive constants; `Int.fdiv` is exactly that floor division.  A JS
`Date` object that may be an Invalid Date (time value `NaN`) is modelled as
`Option Int`, with `none` for the invalid date; every numeric comparison
against `NaN` is false, which `jsDateGE` reflects.
-/

namespace ZhixueCalendar

def msPerHour : Int := 3600000

def msPerDay : Int := 86400000

/-- ECMA-262 `Day(t) = floor(t / msPerDay)`: the UTC calendar-day index of a
time value. `setUTCDate(getUTCDate() - 1)` moves a time value one UTC day back,
i.e. subtracts `msPerDay`, rolling across month and year boundaries. -/
def dayIndex (t : Int) : Int := Int.fdiv t msPerDay

/-- ECMA-262 `HourFromTime(t) = floor(t / msPerHour) mod 24`, the value of
`Date.prototype.getUTCHours`. -/
def hourFromTime (t : Int) : Int := (Int.fdiv t msPerHour) % 24

/-- ECMA-262 `MinFromTime(t) = floor(t / msPerMinute) mod 60`
(`Date.prototype.getUTCMinutes`). -/
def minFromTime (t : Int) : Int := (Int.fdiv t 60000) % 60

/-- ECMA-262 `SecFromTime(t) = floor(t / msPerSecond) mod 60`
(`Date.prototype.getUTCSeconds`). -/
def secFromTime (t : Int) : Int := (Int.fdiv t 1000) % 60

/-- ECMA-262 `msFromTime(t) = t mod 1000` (`Date.prototype.getUTCMilliseconds`). -/
def msFromTime (t : Int) : Int := t % 1000

/-- Effect of `d.setUTCHours(h, 0, 0, 0)` on the time value of `d`: keep the
UTC calendar day, set the hour of day to `h` and minutes, seconds and
milliseconds to zero. -/
def setUTCHours0 (t : Int) (h : Int) : Int := dayIndex t * msPerDay + h * msPerHour

/-- `const SCHEDULED_HOURS_UTC = [22, 10]` from `src/index.ts`. -/
def SCHEDULED_HOURS_UTC : List Int := [22, 10]

/-- `[...SCHEDULED_HOURS_UTC].sort((a, b) => b - a)`: the scheduled hours in
descending order. -/
def sortedHours : List Int := List.insertionSort (fun a b => a ≥ b) SCHEDULED_HOURS_UTC

/-- The `for (const hour of sortedHours)` loop body of `getLastScheduledTime`:
the first hour of the list that the current UTC hour has reached, if any. -/
def findFirstPassed (currentHourUTC : Int) : List Int → Option Int
  | [] => none
  | h :: rest => if currentHourUTC ≥ h then some h else findFirstPassed currentHourUTC rest

/-- `getLastScheduledTime` from `src/index.ts`: the most recent scheduled
update time (22:00 or 10:00 UTC) at or before `now`.  When every scheduled
hour is still in the future today, the result is `sortedHours[0]` on the
previous UTC day (`setUTCDate(getUTCDate() - 1)` followed by
`setUTCHours(h, 0, 0, 0)`). -/
def getLastScheduledTime (now : Int) : Int :=
  let currentHourUTC := hourFromTime now
  match findFirstPassed currentHourUTC sortedHours with
  | some h => setUTCHours0 now h
  | none => setUTCHours0 (now - msPerDay) (sortedHours.headD 0)

/-- JS relational comparison `a >= b` where `a` is a `Date` possibly holding
`NaN` (Invalid Date): any comparison against `NaN` is false. -/
def jsDateGE : Option Int → Int → Bool
  | some a, b => decide (b ≤ a)
  | none, _ => false

/-- `isCacheInValidPeriod` from `src/index.ts`. -/
def isCacheInValidPeriod (lastUpdated : Option Int) (now : Int) : Bool :=
  jsDateGE lastUpdated (getLastScheduledTime now)

lemma sortedHours_eq : sortedHours = [22, 10] := by decide

lemma dayIndex_def (t : Int) : dayIndex t = t / 86400000 := by
  unfold dayIndex msPerDay
  rw [Int.fdiv_eq_ediv _ (by norm_num)]

lemma hourFromTime_def (t : Int) : hourFromTime t = (t / 3600000) % 24 := by
  unfold hourFromTime msPerHour
  rw [Int.fdiv_eq_ediv _ (by norm_num)]

lemma minFromTime_def (t : Int) : minFromTime t = (t / 60000) % 60 := by
  unfold minFromTime
  rw [Int.fdiv_eq_ediv _ (by norm_num)]

lemma secFromTime_def (t : Int) : secFromTime t = (t / 1000) % 60 := by
  unfold secFromTime
  rw [Int.fdiv_eq_ediv _ (by norm_num)]

/-- Closed form of `getLastScheduledTime`: the descending scan over `[22, 10]`
reduces to two hour comparisons. -/
lemma getLastScheduledTime_eq (now : Int) :
    getLastScheduledTime now =
      if 22 ≤ hourFromTime now then setUTCHours0 now 22
      else if 10 ≤ hourFromTime now then setUTCHours0 now 10
      else setUTCHours0 (now - msPerDay) 22 := by
  unfold getLastScheduledTime
  rw [sortedHours_eq]
  simp only [findFirstPassed, ge_iff_le, List.headD]
  split_ifs with h1 h2 <;> rfl

/-- `interface CacheMeta` as it comes out of `JSON.parse(metaString) as
CacheMeta`: the cast is unchecked, so either field may be absent
(`undefined`). -/
structure CacheMeta where
  lastUpdated : Option String
  homeworkCount : Option Int
deriving DecidableEq

/-- Host-platform functions used by the cache layer, passed as an explicit
environment: `JSON.parse` read as a `CacheMeta` (with `none` for a thrown
parse error), `new Date(string)` (with `none` for an Invalid Date), and
`Date.prototype.toISOString`. -/
structure JsonEnv where
  parseMeta : String → Option CacheMeta
  parseDate : String → Option Int
  isoString : Int → String

/-- `new Date(meta.lastUpdated)`: on an absent (`undefined`) field the result
is an Invalid Date, otherwise the string is parsed as a date. -/
def jsNewDateOfField (J : JsonEnv) : Option String → Option Int
  | none => none
  | some s => J.parseDate s

/-- The three KV keys of the worker (`zhixue-calendar-ics`,
`zhixue-calendar-meta`, `zhixue-calendar-deployment`); `KVNamespace.get`
returns the stored string or `null`. -/
structure KVState where
  icsContent : Option String
  metaString : Option String
  deploymentVersion : Option String
deriving DecidableEq

/-- `const DEPLOYMENT_VERSION = '2026-02-06'` from `src/index.ts`. -/
def DEPLOYMENT_VERSION : String := "2026-02-06"

/-- JS falsiness of a `string | null` value: `null` and the empty string are
falsy. -/
def isFalsy : Option String → Bool
  | none => true
  | some s => decide (s = "")

/-- `getCachedCalendar` from `src/index.ts`: returns the cached text, or
`null` when the deployment version mismatches, the artifact is absent or
empty, the metadata is absent, empty, or fails to parse, or the metadata
timestamp is not in the current validity period. -/
def getCachedCalendar (J : JsonEnv) (kv : KVState) (now : Int) : Option String :=
  if kv.deploymentVersion ≠ some DEPLOYMENT_VERSION then none
  else if isFalsy kv.icsContent then none
  else
    match kv.metaString with
    | none => none
    | some ms =>
      if ms = "" then none
      else
        match J.parseMeta ms with
        | none => none
        | some meta =>
          if isCacheInValidPeriod (jsNewDateOfField J meta.lastUpdated) now then
            kv.icsContent
          else none

/-- `interface ZhixueHomework` from `src/index.ts` (nested objects
flattened). -/
structure ZhixueHomework where
  hwId : String
  subjectName : String
  hwTitle : String
  createTime : Int
  endTime : Int
  hwType : Int
  stateName : String
  stateCode : Int
  typeName : String

/-- `JSON.stringify({ lastUpdated, homeworkCount })` for the metadata record
written by `updateCalendarCache`. -/
def stringifyMeta (lastUpdated : String) (homeworkCount : Int) : String :=
  "\x7b\"lastUpdated\":\"" ++ lastUpdated ++ "\",\"homeworkCount\":" ++
    toString homeworkCount ++ "\x7d"

/-- `updateCalendarCache` from `src/index.ts`, after a successful fetch:
serializes the homework list (`generateCalendar` is the external
`ical-generator` collaborator) and overwrites the three KV keys with the
artifact, metadata stamped `new Date().toISOString()` at `writeTime`, and the
deployment version.  Returns the written state and the returned text. -/
def updateCalendarCache (J : JsonEnv) (generateCalendar : List ZhixueHomework → String)
    (homeworkList : List ZhixueHomework) (writeTime : Int) : KVState × String :=
  let icsContent := generateCalendar homeworkList
  (⟨some icsContent,
    some (stringifyMeta (J.isoString writeTime) (homeworkList.length : Int)),
    some DEPLOYMENT_VERSION⟩, icsContent)

/-- Key bound shared by several claims: the last scheduled instant never lies
in the future of `now`. -/
lemma getLastScheduledTime_le (now : Int) : getLastScheduledTime now ≤ now := by
  simp only [getLastScheduledTime_eq, setUTCHours0, dayIndex_def, hourFromTime_def,
    msPerDay, msPerHour]
  omega

/-- C1: for every input time `now`, `getLastScheduledTime(now)` has UTC hour
22 or 10, has zero minutes, seconds and milliseconds, lies on the same UTC
calendar day as `now` or on the immediately preceding one (day indices over
epoch milliseconds roll correctly across month and year boundaries), and is
at most `now`. -/
theorem C1_getLastScheduledTime_shape (now : Int) :
    (hourFromTime (getLastScheduledTime now) = 22 ∨
      hourFromTime (getLastScheduledTime now) = 10) ∧
    minFromTime (getLastScheduledTime now) = 0 ∧
    secFromTime (getLastScheduledTime now) = 0 ∧
    msFromTime (getLastScheduledTime now) = 0 ∧
    (dayIndex (getLastScheduledTime now) = dayIndex now ∨
      dayIndex (getLastScheduledTime now) = dayIndex now - 1) ∧
    getLastScheduledTime now ≤ now := by
  simp only [getLastScheduledTime_eq, setUTCHours0, dayIndex_def, hourFromTime_def,
    minFromTime_def, secFromTime_def, msFromTime, msPerDay, msPerHour]
  omega

/-- C4: `getLastScheduledTime` is idempotent: applying it to its own result
returns the same instant. -/
theorem C4_getLastScheduledTime_idempotent (now : Int) :
    getLastScheduledTime (getLastScheduledTime now) = getLastScheduledTime now := by
  simp only [getLastScheduledTime_eq, setUTCHours0, dayIndex_def, hourFromTime_def,
    msPerDay, msPerHour]
  omega

/-- C5: the three concrete scenarios of the spec, in epoch milliseconds:
`2026-02-06T23:00Z ↦ 2026-02-06T22:00Z`, `2026-02-06T15:00Z ↦
2026-02-06T10:00Z`, and `2026-02-06T08:00Z ↦ 2026-02-05T22:00Z` (previous-day
rollback). -/
theorem C5_getLastScheduledTime_scenarios :
    getLastScheduledTime 1770418800000 = 1770415200000 ∧
    getLastScheduledTime 1770390000000 = 1770372000000 ∧
    getLastScheduledTime 1770364800000 = 1770328800000 := by
  refine ⟨?_, ?_, ?_⟩ <;> decide

/-- C2: `isCacheInValidPeriod lastUpdated now` is true exactly when
`lastUpdated` is at or after `getLastScheduledTime now` (equality counts as
fresh), it is monotone in `lastUpdated` for a fixed `now`, and a `lastUpdated`
strictly in the future of `now` is always reported fresh. -/
theorem C2_isCacheInValidPeriod_iff (t now : Int) :
    (isCacheInValidPeriod (some t) now = true ↔ getLastScheduledTime now ≤ t) ∧
    (∀ u, t ≤ u → isCacheInValidPeriod (some t) now = true →
      isCacheInValidPeriod (some u) now = true) ∧
    (now < t → isCacheInValidPeriod (some t) now = true) := by
  have hle : getLastScheduledTime now ≤ now := getLastScheduledTime_le now
  refine ⟨?_, ?_, ?_⟩
  · simp [isCacheInValidPeriod, jsDateGE]
  · intro u htu h
    simp only [isCacheInValidPeriod, jsDateGE, decide_eq_true_eq] at h ⊢
    exact le_trans h htu
  · intro h
    simp only [isCacheInValidPeriod, jsDateGE, decide_eq_true_eq]
    exact le_trans hle (le_of_lt h)

/-- Appending to a non-empty string never yields the empty string. -/
lemma append_ne_empty_left (a b : String) (h : a ≠ "") : a ++ b ≠ "" := by
  intro hc
  apply h
  cases a with
  | mk la =>
    cases b with
    | mk lb =>
      have hd : (String.mk la ++ String.mk lb).data = "".data := congrArg String.data hc
      simp [String.append] at hd
      simp [hd.1]

/-- The serialized metadata record is never the empty string. -/
lemma stringifyMeta_ne_empty (a : String) (n : Int) : stringifyMeta a n ≠ "" := by
  unfold stringifyMeta
  apply append_ne_empty_left
  apply append_ne_empty_left
  apply append_ne_empty_left
  apply append_ne_empty_left
  decide

/-- C3: `getCachedCalendar` hands back the stored artifact text unchanged
exactly when the stored deployment marker equals `DEPLOYMENT_VERSION`, the
artifact is present and non-empty, the metadata is present and parses, and
`isCacheInValidPeriod` accepts its timestamp; in every other case it returns
`null`.  The hypothesis pins down real `JSON.parse` behaviour on the empty
string (the empty string is not valid JSON). -/
theorem C3_getCachedCalendar_iff (J : JsonEnv) (kv : KVState) (now : Int) (s : String)
    (hJ : J.parseMeta "" = none) :
    getCachedCalendar J kv now = some s ↔
      kv.deploymentVersion = some DEPLOYMENT_VERSION ∧
      kv.icsContent = some s ∧ s ≠ "" ∧
      ∃ ms meta, kv.metaString = some ms ∧ J.parseMeta ms = some meta ∧
        isCacheInValidPeriod (jsNewDateOfField J meta.lastUpdated) now = true := by
  obtain ⟨ics, msO, dep⟩ := kv
  constructor
  · intro h
    unfold getCachedCalendar at h
    split at h
    next hdep => exact absurd h (by simp)
    next hdep =>
      split at h
      next hics => exact absurd h (by simp)
      next hics =>
        split at h
        next => exact absurd h (by simp)
        next ms hms =>
          split at h
          next hempty => exact absurd h (by simp)
          next hempty =>
            split at h
            next hpm => exact absurd h (by simp)
            next meta hpm =>
              split at h
              next hfresh =>
                refine ⟨by simpa using hdep, h, ?_, ms, meta, by simpa using hms, hpm, hfresh⟩
                rw [h] at hics
                simpa [isFalsy] using hics
              next hfresh => exact absurd h (by simp)
  · rintro ⟨hdep, hics, hs, ms, meta, hms, hpm, hfresh⟩
    subst hdep
    subst hics
    subst hms
    have hmsne : ms ≠ "" := by
      intro hc
      rw [hc, hJ] at hpm
      exact Option.noConfusion hpm
    simp [getCachedCalendar, isFalsy, hs, hmsne, hpm, hfresh]

/-- C8: metadata that fails to parse is treated exactly like absent metadata:
`getCachedCalendar` returns `null` (and, being a total function, never
throws — the `try`/`catch` of the source is embedded as the `Option` result
of `parseMeta`). -/
theorem C8_corrupt_metadata_like_absent (J : JsonEnv) (kv : KVState) (now : Int)
    (ms : String) (hm : kv.metaString = some ms) (hp : J.parseMeta ms = none) :
    getCachedCalendar J kv now = none ∧
    getCachedCalendar J { kv with metaString := none } now = none := by
  obtain ⟨ics, msO, dep⟩ := kv
  simp only at hm
  subst hm
  constructor
  · simp only [getCachedCalendar]
    split_ifs <;> simp [hp]
  · simp only [getCachedCalendar]
    split_ifs <;> rfl

/-- C10: metadata that parses but whose `lastUpdated` is not a valid timestamp
string produces an Invalid Date, the `>=` comparison is false, and
`getCachedCalendar` returns `null` — the same conservative outcome as for
unparseable metadata. -/
theorem C10_invalid_timestamp_stale (J : JsonEnv) (kv : KVState) (now : Int)
    (ms s : String) (meta : CacheMeta) (hm : kv.metaString = some ms)
    (hp : J.parseMeta ms = some meta) (hlu : meta.lastUpdated = some s)
    (hd : J.parseDate s = none) :
    getCachedCalendar J kv now = none := by
  obtain ⟨ics, msO, dep⟩ := kv
  simp only at hm
  subst hm
  simp only [getCachedCalendar]
  split_ifs <;>
    simp [hp, hlu, jsNewDateOfField, hd, isCacheInValidPeriod, jsDateGE]

/-- Next scheduled instant, as the spec words it: the least scheduled instant
(22:00 or 10:00 UTC with zero minutes, seconds and milliseconds) strictly
after `t`.  This is a specification-side notion used to state the round-trip
claim; it is not part of the source. -/
def nextScheduledTime (t : Int) : Int :=
  if t < setUTCHours0 t 10 then setUTCHours0 t 10
  else if t < setUTCHours0 t 22 then setUTCHours0 t 22
  else setUTCHours0 (t + msPerDay) 10

/-- Between a write instant and the next scheduled instant, the last scheduled
instant stays at or before the write instant. -/
lemma getLastScheduledTime_le_of_lt_next (w now : Int) (h1 : w ≤ now)
    (h2 : now < nextScheduledTime w) : getLastScheduledTime now ≤ w := by
  simp only [getLastScheduledTime_eq, nextScheduledTime, setUTCHours0, dayIndex_def,
    hourFromTime_def, msPerDay, msPerHour] at h2 ⊢
  split_ifs at h2 ⊢ <;> omega

/-- C6: after a successful `updateCalendarCache` at `writeTime`, reading with
`getCachedCalendar` at any `now` from the write up to (but excluding) the next
scheduled instant returns exactly the text just written.  The hypotheses pin
down the host platform: the serializer output is non-empty, `JSON.parse`
inverts `JSON.stringify` on the written metadata record, and `new Date(s)`
inverts `toISOString`. -/
theorem C6_round_trip (J : JsonEnv) (generateCalendar : List ZhixueHomework → String)
    (hw : List ZhixueHomework) (writeTime now : Int)
    (hgen : generateCalendar hw ≠ "")
    (hmeta : J.parseMeta (stringifyMeta (J.isoString writeTime) (hw.length : Int)) =
      some ⟨some (J.isoString writeTime), some (hw.length : Int)⟩)
    (hdate : J.parseDate (J.isoString writeTime) = some writeTime)
    (h1 : writeTime ≤ now) (h2 : now < nextScheduledTime writeTime) :
    getCachedCalendar J (updateCalendarCache J generateCalendar hw writeTime).1 now =
      some (updateCalendarCache J generateCalendar hw writeTime).2 := by
  have hfresh : isCacheInValidPeriod (some writeTime) now = true := by
    simp only [isCacheInValidPeriod, jsDateGE, decide_eq_true_eq]
    exact getLastScheduledTime_le_of_lt_next writeTime now h1 h2
  have hms := stringifyMeta_ne_empty (J.isoString writeTime) (hw.length : Int)
  simp [updateCalendarCache, getCachedCalendar, isFalsy, hgen, hms, hmeta,
    jsNewDateOfField, hdate, hfresh]

/-- Outcome of the three parallel `KVNamespace.put` calls of
`updateCalendarCache`: either all succeed, or some put rejects and the store
is left in `partialState` (any subset of the writes may have landed). -/
structure StoreOutcome where
  putOk : Bool
  partialState : KVState

/-- Effectful run of `updateCalendarCache`: the remote fetch outcome and the
store outcome are oracle inputs.  A fetch error propagates before any KV
write, so the store is unchanged; a put error surfaces after the fetch with
`partialState` left behind.  The result pairs the resulting store with either
the returned text or the thrown error message. -/
def updateCalendarCacheE (J : JsonEnv) (generateCalendar : List ZhixueHomework → String)
    (fetchResult : Except String (List ZhixueHomework)) (store : StoreOutcome)
    (kv : KVState) (writeTime : Int) : KVState × Except String String :=
  match fetchResult with
  | .error e => (kv, .error e)
  | .ok homeworkList =>
    let r := updateCalendarCache J generateCalendar homeworkList writeTime
    if store.putOk then (r.1, .ok r.2) else (store.partialState, .error "KV put failed")

/-- A JS `Response` as far as the claims are concerned: status code and
body. -/
structure JsResponse where
  status : Int
  body : String
deriving DecidableEq

/-- The `fetch` handler of `src/index.ts`: reject a missing `ZHIXUE_COOKIE`
with a 500 response naming the variable; otherwise serve the cached text, or
regenerate when the cache read returns `null`; any error thrown during
generation is caught and answered with status 500 and the failure detail. -/
def fetchHandler (cookie : String) (J : JsonEnv)
    (generateCalendar : List ZhixueHomework → String)
    (fetchResult : Except String (List ZhixueHomework)) (store : StoreOutcome)
    (kv : KVState) (now : Int) : KVState × JsResponse :=
  if cookie = "" then (kv, ⟨500, "Error: ZHIXUE_COOKIE secret is not set."⟩)
  else
    match getCachedCalendar J kv now with
    | some icsContent => (kv, ⟨200, icsContent⟩)
    | none =>
      match updateCalendarCacheE J generateCalendar fetchResult store kv now with
      | (kv2, .ok icsContent) => (kv2, ⟨200, icsContent⟩)
      | (kv2, .error e) => (kv2, ⟨500, "Internal Error: " ++ e⟩)

/-- The `scheduled` handler of `src/index.ts`: a missing cookie is logged and
the handler returns; otherwise `updateCalendarCache` runs inside
`try`/`catch`, so every failure is logged and swallowed.  The second component
is the message of an uncaught fault (`none` when the handler returns
normally). -/
def scheduledHandler (cookie : String) (J : JsonEnv)
    (generateCalendar : List ZhixueHomework → String)
    (fetchResult : Except String (List ZhixueHomework)) (store : StoreOutcome)
    (kv : KVState) (now : Int) : KVState × Option String :=
  if cookie = "" then (kv, none)
  else
    match updateCalendarCacheE J generateCalendar fetchResult store kv now with
    | (kv2, .ok _) => (kv2, none)
    | (kv2, .error _) => (kv2, none)

/-- C7: the scheduled handler returns normally on every input — missing
cookie, remote fetch error, or store error — and when the remote fetch fails
the KV store is unchanged, so the previous generation is still what the read
path sees. -/
theorem C7_scheduled_never_faults (cookie : String) (J : JsonEnv)
    (generateCalendar : List ZhixueHomework → String)
    (fetchResult : Except String (List ZhixueHomework)) (store : StoreOutcome)
    (kv : KVState) (now : Int) :
    (scheduledHandler cookie J generateCalendar fetchResult store kv now).2 = none ∧
    (∀ e, fetchResult = .error e →
      (scheduledHandler cookie J generateCalendar fetchResult store kv now).1 = kv) := by
  constructor
  · unfold scheduledHandler
    split_ifs
    · rfl
    · unfold updateCalendarCacheE
      rcases fetchResult with e | hwl
      · rfl
      · dsimp only
        split_ifs <;> rfl
  · rintro e rfl
    unfold scheduledHandler updateCalendarCacheE
    split_ifs <;> rfl

/-- The generic failure body never coincides with the missing-cookie body:
their first characters differ. -/
lemma internal_error_ne_config (e : String) :
    ("Internal Error: " ++ e) ≠ "Error: ZHIXUE_COOKIE secret is not set." := by
  intro h
  have hd : ("Internal Error: " ++ e).data =
      ("Error: ZHIXUE_COOKIE secret is not set.").data := congrArg String.data h
  cases e with
  | mk d => simp [String.append] at hd

def emptyKV : KVState := ⟨none, none, none⟩

def trivJ : JsonEnv := ⟨fun _ => none, fun _ => none, fun _ => ""⟩

def trivGen : List ZhixueHomework → String := fun _ => "BEGIN:VCALENDAR"

def trivStore : StoreOutcome := ⟨true, emptyKV⟩

/-- C9, counterexample: the missing-cookie response and a generation-failure
response carry the same status 500, so the status does not distinguish the
configuration error from other unexpected generation failures. -/
theorem C9_status_counterexample :
    (fetchHandler "" trivJ trivGen (Except.error "boom") trivStore emptyKV 0).2.status =
      (fetchHandler "cookie" trivJ trivGen (Except.error "boom") trivStore emptyKV 0).2.status ∧
    (fetchHandler "" trivJ trivGen (Except.error "boom") trivStore emptyKV 0).2.status = 500 := by
  decide

/-- C9 as amended: a request with the `ZHIXUE_COOKIE` credential missing gets
the client-visible response with status 500 whose body mentions
`ZHIXUE_COOKIE`; unexpected generation failures also answer with status 500,
and the two cases are distinguished by the body text, not by the status. -/
theorem C9_amended_config_error (cookie : String) (J : JsonEnv)
    (generateCalendar : List ZhixueHomework → String)
    (fetchResult : Except String (List ZhixueHomework)) (store : StoreOutcome)
    (kv : KVState) (now : Int) (hc : cookie = "") :
    (fetchHandler cookie J generateCalendar fetchResult store kv now).2 =
      ⟨500, "Error: ZHIXUE_COOKIE secret is not set."⟩ ∧
    (∃ pre post,
      "Error: ZHIXUE_COOKIE secret is not set." = pre ++ "ZHIXUE_COOKIE" ++ post) ∧
    (∀ (cookie2 : String) (J2 : JsonEnv) (gen2 : List ZhixueHomework → String)
      (e : String) (store2 : StoreOutcome) (kv2 : KVState) (now2 : Int),
      cookie2 ≠ "" →
      (fetchHandler cookie2 J2 gen2 (Except.error e) store2 kv2 now2).2.status = 500 →
      (fetchHandler cookie2 J2 gen2 (Except.error e) store2 kv2 now2).2.body ≠
        "Error: ZHIXUE_COOKIE secret is not set.") := by
  refine ⟨by simp [fetchHandler, hc], ⟨"Error: ", " secret is not set.", by decide⟩, ?_⟩
  intro cookie2 J2 gen2 e store2 kv2 now2 hc2 hst
  unfold fetchHandler at hst ⊢
  rw [if_neg hc2] at hst ⊢
  rcases hcache : getCachedCalendar J2 kv2 now2 with _ | ics
  · simp only [updateCalendarCacheE]
    exact internal_error_ne_config e
  · rw [hcache] at hst
    simp at hst

theorem C2_witness : isCacheInValidPeriod (some 1) 0 = true :=
  (C2_isCacheInValidPeriod_iff 1 0).2.2 (by decide)

def isoW : String := "1970-01-02T00:00:00.000Z"

def witJ : JsonEnv :=
  ⟨fun s => if s = stringifyMeta isoW 0 then some ⟨some isoW, some 0⟩ else none,
   fun s => if s = isoW then some 86400000 else none,
   fun _ => isoW⟩

theorem C3_witness :
    getCachedCalendar witJ
      ⟨some "X", some (stringifyMeta isoW 0), some DEPLOYMENT_VERSION⟩ 86400000 =
      some "X" :=
  (C3_getCachedCalendar_iff witJ
      ⟨some "X", some (stringifyMeta isoW 0), some DEPLOYMENT_VERSION⟩ 86400000 "X"
      (by decide)).mpr
    ⟨rfl, rfl, by decide, stringifyMeta isoW 0, ⟨some isoW, some 0⟩, rfl, by decide,
      by decide⟩

theorem C6_witness :
    getCachedCalendar witJ (updateCalendarCache witJ trivGen [] 86400000).1 86400000 =
      some (updateCalendarCache witJ trivGen [] 86400000).2 :=
  C6_round_trip witJ trivGen [] 86400000 86400000 (by decide) (by decide) (by decide)
    (by decide) (by decide)

theorem C7_witness :
    (scheduledHandler "c" trivJ trivGen (Except.error "boom") trivStore emptyKV 0).2 =
      none ∧
    (scheduledHandler "c" trivJ trivGen (Except.error "boom") trivStore emptyKV 0).1 =
      emptyKV :=
  ⟨(C7_scheduled_never_faults "c" trivJ trivGen (Except.error "boom") trivStore
      emptyKV 0).1,
   (C7_scheduled_never_faults "c" trivJ trivGen (Except.error "boom") trivStore
      emptyKV 0).2 "boom" rfl⟩

theorem C8_witness :
    getCachedCalendar witJ ⟨some "X", some "junk", some DEPLOYMENT_VERSION⟩ 0 = none ∧
    getCachedCalendar witJ ⟨some "X", none, some DEPLOYMENT_VERSION⟩ 0 = none :=
  C8_corrupt_metadata_like_absent witJ
    ⟨some "X", some "junk", some DEPLOYMENT_VERSION⟩ 0 "junk" rfl (by decide)

theorem C9_amended_witness :
    (fetchHandler "" trivJ trivGen (Except.error "x") trivStore emptyKV 0).2 =
      ⟨500, "Error: ZHIXUE_COOKIE secret is not set."⟩ :=
  (C9_amended_config_error "" trivJ trivGen (Except.error "x") trivStore emptyKV 0
    rfl).1

def c10J : JsonEnv :=
  ⟨fun s => if s = "m" then some ⟨some "not-a-date", some 1⟩ else none,
   fun _ => none,
   fun _ => ""⟩

theorem C10_witness :
    getCachedCalendar c10J ⟨some "X", some "m", some DEPLOYMENT_VERSION⟩ 0 = none :=
  C10_invalid_timestamp_stale c10J ⟨some "X", some "m", some DEPLOYMENT_VERSION⟩ 0
    "m" "not-a-date" ⟨some "not-a-date", some 1⟩ rfl (by decide) rfl rfl

end ZhixueCalendar
